import Mathlib

/-!
CineRecommend — verification of the spec against the code.

Shallow embedding of the CineRecommend repository (FastAPI backend
`src/api/main.py`, Streamlit frontend `src/streamlit_app/app.py`, and the
launch scripts) together with theorems settling the frozen claims.

Conventions of the embedding:
* pandas `DataFrame`s become Lean lists of rows, kept in catalog order;
* Python floats become `ℚ` (the claims only compare, sort and bound scores,
  so exact rational arithmetic is a faithful model);
* the NumPy global random generator is made explicit: every value the code
  draws from it (the row selection of `DataFrame.sample`, the uniform score
  draws, the index picked by `np.random.choice`) is a field of an explicit
  `RngDraws` value.  The API endpoint calls `np.random.seed(user_id)`
  before drawing, so its draws are a function of the user id: the model
  passes it `rng : Int → RngDraws`.  The Streamlit app never seeds, so its
  draws are an ambient-state input `d : RngDraws` independent of the
  request.
-/

/-- A row of the movies table (`movies_df`): `movieId,title,genres`.
`title` is `Option` because pandas titles can be missing (`NaN`), which
`str.contains(..., na=False)` treats as a non-match.  Titles are lists of
characters so that the search endpoint's matching can be stated
character by character. -/
structure MovieRow where
  movieId : Int
  title : Option (List Char)
  genres : String
deriving DecidableEq, Repr

/-- A row of the ratings table (`ratings_df`): `userId,movieId,rating,timestamp`. -/
structure RatingRow where
  userId : Int
  movieId : Int
  rating : ℚ
  timestamp : Int
deriving DecidableEq, Repr

/-- The values consumed from the NumPy global random generator by one
recommendation request: the distinct row positions chosen by
`movies_df.sample`, the uniform draws in `[0,1)` used for the scores
(one per sampled row), and the indices picked by `np.random.choice`
for the reasons. -/
structure RngDraws where
  sel : List ℕ
  score : ℕ → ℚ
  reason : ℕ → ℕ

/-- Model of `movies_df.sample(k)`: the `k` distinct rows selected by the random
draw `sel` (positions out of range select nothing; the real generator
only produces in-range distinct positions). -/
def dfSample (movies : List MovieRow) (k : ℕ) (sel : List ℕ) : List MovieRow :=
  (sel.take k).filterMap (fun i => movies[i]?)

/-- The five hard-coded reason strings of `get_user_recommendations`. -/
def reasonsList : List String :=
  ["Basé sur vos films préférés",
   "Populaire parmi les utilisateurs similaires",
   "Nouveau film tendance",
   "Correspond à vos genres favoris",
   "Recommandé par notre IA"]

/-- The API `Recommendation` response model (pydantic): `movieId`, `title`,
`genres`, `score`, `reason`. -/
structure ApiRecommendation where
  movieId : Int
  title : Option (List Char)
  genres : String
  score : ℚ
  reason : String
deriving DecidableEq, Repr

/-- Relation of `recommendations.sort(key=lambda x: x.score, reverse=True)`:
the sort is stable, puts higher scores first and keeps the original order of
equal scores.  Python's stable sort is modelled by `List.insertionSort`,
which is also stable. -/
def apiScoreGE (a b : ApiRecommendation) : Prop :=
  b.score ≤ a.score

instance : DecidableRel apiScoreGE :=
  fun a b => inferInstanceAs (Decidable (b.score ≤ a.score))

/-- Body of `GET /recommend/user/...` (`get_user_recommendations` in
`src/api/main.py`), for loaded tables: reads the user's ratings only to log
a message, calls `np.random.seed(user_id)` (modelled by drawing
`rng userId`), samples `min n (movies.length)` random movies, gives each a
score `0.5 + 0.4 * np.random.random()` and a reason picked by
`np.random.choice` from `reasonsList`, then sorts by score descending
(Python's stable sort). -/
def apiRecommendList (rng : Int → RngDraws) (movies : List MovieRow)
    (ratings : List RatingRow) (userId : Int) (n : ℕ) : List ApiRecommendation :=
  let _userRatings := ratings.filter (fun r => r.userId == userId)
  let d := rng userId
  let sampled := dfSample movies (min n movies.length) d.sel
  let recs := sampled.enum.map (fun p =>
    { movieId := p.2.movieId
      title := p.2.title
      genres := p.2.genres
      score := 1/2 + 2/5 * d.score p.1
      reason := reasonsList.getD (d.reason p.1 % 5) "" })
  List.insertionSort apiScoreGE recs

/-- The full endpoint including the `movies_df is None` check that returns
HTTP 500; `ratings_df` being `None` only skips the logging branch. -/
def apiRecommendEndpoint (rng : Int → RngDraws) (moviesOpt : Option (List MovieRow))
    (ratingsOpt : Option (List RatingRow)) (userId : Int) (n : ℕ) :
    Except ℕ (List ApiRecommendation) :=
  match moviesOpt with
  | none => .error 500
  | some movies => .ok (apiRecommendList rng movies (ratingsOpt.getD []) userId n)

/-- A recommendation dict of the Streamlit app (`title`, `genres`, `score`,
`reason`; note there is no `movieId` key). -/
structure StRecommendation where
  title : Option (List Char)
  genres : String
  score : ℚ
  reason : String
deriving DecidableEq, Repr

/-- Relation of `sorted(recommendations, key=lambda x: x['score'], reverse=True)`. -/
def stScoreGE (a b : StRecommendation) : Prop :=
  b.score ≤ a.score

instance : DecidableRel stScoreGE :=
  fun a b => inferInstanceAs (Decidable (b.score ≤ a.score))

/-- Model of `CineRecommendApp.get_recommendations` in `src/streamlit_app/app.py`:
samples `min n (movies.length)` random movies **without seeding the
generator** (the `user_id` argument is never used), scores each with
`np.random.uniform(0.7, 0.95) = 0.7 + 0.25*u`, attaches the fixed reason
string, and sorts by score descending.  The draw state `d` is ambient
global-generator state, not a function of the request. -/
def streamlitRecommendations (movies : List MovieRow) (n : ℕ) (d : RngDraws) :
    List StRecommendation :=
  let sampled := dfSample movies (min n movies.length) d.sel
  let recs := sampled.enum.map (fun p =>
    { title := p.2.title
      genres := p.2.genres
      score := 7/10 + 1/4 * d.score p.1
      reason := "Basé sur vos préférences" })
  List.insertionSort stScoreGE recs

/-- Number of ratings of movie `m` in the ratings table. -/
def ratingCount (ratings : List RatingRow) (m : Int) : ℕ :=
  (ratings.filter (fun r => r.movieId == m)).length

/-- The `n` most-rated movie ids system-wide, most-rated first (the
popularity ranking the spec's fallback refers to). -/
def topRatedIds (movies : List MovieRow) (ratings : List RatingRow) (n : ℕ) : List Int :=
  (List.insertionSort
    (fun a b => ratingCount ratings b ≤ ratingCount ratings a)
    (movies.map (fun mv => mv.movieId))).take n

/-! ## Fixtures -/

/-- Three-movie catalog fixture. -/
def moviesFix : List MovieRow :=
  [⟨1, some ("Toy Story (1995)".toList), "Adventure|Animation|Children|Comedy|Fantasy"⟩,
   ⟨2, some ("Jumanji (1995)".toList), "Adventure|Children|Fantasy"⟩,
   ⟨3, some ("Heat (1995)".toList), "Action|Crime|Thriller"⟩]

/-- Ratings fixture where movie 3 is the single most-rated movie
(3 ratings, movies 1 and 2 have one each).  User 999 is absent. -/
def ratingsA : List RatingRow :=
  [⟨1, 3, 5, 100⟩, ⟨2, 3, 4, 101⟩, ⟨3, 3, 9/2, 102⟩, ⟨1, 1, 3, 103⟩, ⟨2, 2, 7/2, 104⟩]

/-- Ratings fixture where movie 2 is the single most-rated movie.
User 999 is absent. -/
def ratingsB : List RatingRow :=
  [⟨1, 2, 5, 100⟩, ⟨2, 2, 4, 101⟩, ⟨3, 2, 9/2, 102⟩, ⟨1, 1, 3, 103⟩, ⟨2, 3, 7/2, 104⟩]

/-- A concrete ambient-generator state: selects the first row, scores 0. -/
def drawsZero : RngDraws := ⟨[0], fun _ => 0, fun _ => 0⟩

/-- A second ambient-generator state: selects the first row, scores 1/2. -/
def drawsHalf : RngDraws := ⟨[0], fun _ => 1/2, fun _ => 0⟩

/-- A concrete seeded generator: for every seed, selects row 0, scores 1/2,
reason index 0. -/
def rngW : Int → RngDraws := fun _ => drawsHalf

instance : IsTotal ApiRecommendation apiScoreGE :=
  ⟨fun a b => le_total b.score a.score⟩

instance : IsTrans ApiRecommendation apiScoreGE :=
  ⟨fun _ _ _ h1 h2 => le_trans h2 h1⟩

/-- The ordering the claim asserts: score strictly descending, or equal
scores with strictly ascending `movieId`. -/
abbrev claimC4Order (l : List ApiRecommendation) : Prop :=
  List.Pairwise
    (fun a b => b.score < a.score ∨ (a.score = b.score ∧ a.movieId < b.movieId)) l

/-- A seeded generator whose sample order is row 1 then row 0, with equal
score draws: produces a tie between two recommendations sampled in
descending `movieId` order. -/
def rngTie : Int → RngDraws := fun _ => ⟨[1, 0], fun _ => 1/2, fun _ => 0⟩

/-- A `POST /ratings` body as validated by the pydantic `Rating` model:
`userId: int`, `movieId: int` (no sign constraint), `rating: float` with
`Field(..., ge=0.5, le=5.0)`, `timestamp: Optional[int] = None`. -/
structure RatingSubmission where
  userId : Int
  movieId : Int
  rating : ℚ
  timestamp : Option Int
deriving DecidableEq, Repr

/-- Pydantic validation of the `Rating` model: accepts exactly when the
rating lies in `[0.5, 5.0]`; the ids are unconstrained `int` fields and the
accepted value is stored verbatim (no coercion). -/
def ratingValidate (userId movieId : Int) (rating : ℚ) (timestamp : Option Int) :
    Option RatingSubmission :=
  if 1/2 ≤ rating ∧ rating ≤ 5 then some ⟨userId, movieId, rating, timestamp⟩
  else none

/-- The two global tables of `src/api/main.py` (`movies_df`, `ratings_df`),
both loaded. -/
structure AppState where
  movies : List MovieRow
  ratings : List RatingRow
deriving DecidableEq, Repr

/-- Handler of `POST /ratings` (`add_rating`), for loaded tables: 404 when no
catalog movie has the submitted `movieId` (state untouched); otherwise
appends one row whose timestamp is `rating.timestamp or int(time.time())`
— the Python `or` falls back to `now` when the field is `None` **or** when
it equals the falsy value `0`.  `movies_df` is never written. -/
def addRating (st : AppState) (sub : RatingSubmission) (now : Int) :
    Except ℕ RatingRow × AppState :=
  if st.movies.any (fun mv => mv.movieId == sub.movieId) then
    let ts := match sub.timestamp with
      | some t => if t = 0 then now else t
      | none => now
    let row : RatingRow := ⟨sub.userId, sub.movieId, sub.rating, ts⟩
    (.ok row, ⟨st.movies, st.ratings ++ [row]⟩)
  else (.error 404, st)

/-- Lowercasing applied by `case=False` (ASCII case folding). -/
def lowerList (s : List Char) : List Char := s.map Char.toLower

/-- The special (meta)characters of Python's `re` syntax:
`. ^ $ * + ? [ ] ( ) | \ { }` (the last three written by code point to
keep them out of the source text). -/
def pyRegexMeta : List Char :=
  ['.', '^', '$', '*', '+', '?', '[', ']', '(', ')', '|',
   Char.ofNat 92, Char.ofNat 123, Char.ofNat 125]

/-- One step of Python regular-expression matching on the fragment in
which every pattern character is either `.` (match any character except a
newline) or a literal character: does the pattern match a prefix of the
string?  On this fragment the definition coincides exactly with Python's
`re`; patterns containing any other metacharacter are **not** given a
meaning here (see `searchMovies`). -/
def reMatchAt : List Char → List Char → Bool
  | [], _ => true
  | _ :: _, [] => false
  | p :: ps, c :: cs =>
      ((p == '.' && !(c == Char.ofNat 10)) || p == c) && reMatchAt ps cs

/-- Search semantics of `re.search`: the pattern matches at some position. -/
def reSearch (p s : List Char) : Bool :=
  s.tails.any (fun t => reMatchAt p t)

/-- Literal substring containment (what the claim says the search does). -/
def subContains (p s : List Char) : Bool :=
  s.tails.any (fun t => p.isPrefixOf t)

/-- Does every character of the query lie in the exactly-modelled regex
fragment — `.` or a non-metacharacter?  Outside this fragment pandas
either applies full regex semantics (`*`, `[`, …) or `re.compile` raises
`re.error` (e.g. an unbalanced `(`), neither of which this embedding
models. -/
def inRegexFragment (query : List Char) : Bool :=
  query.all (fun c => c == '.' || !(decide (c ∈ pyRegexMeta)))

/-- Model of `movies_df['title'].str.contains(query, case=False, na=False)` for one
row, defined on the dot-or-literal fragment: a missing title never
matches; a present title is matched, lowercased, against the lowercased
query interpreted as a regular expression. -/
def titleMatches (query : List Char) (mv : MovieRow) : Bool :=
  match mv.title with
  | none => false
  | some t => reSearch (lowerList query) (lowerList t)

/-- Model of `GET /movies/search` (`search_movies` in `src/api/main.py`):
filter the catalog by the title mask (catalog order preserved), then
`head(limit)`.  The model is partial: for a query inside the
dot-or-literal regex fragment it returns the endpoint's row list; for any
other query it returns `none`, asserting nothing — there the real
endpoint either filters with full Python regex semantics or propagates
`re.error` (surfaced as HTTP 500), and this embedding does not model
either behaviour. -/
def searchMovies (movies : List MovieRow) (query : List Char) (limit : ℕ) :
    Option (List MovieRow) :=
  if inRegexFragment query then
    some ((movies.filter (titleMatches query)).take limit)
  else none

/-- The claim's semantics of the search: case-insensitive **literal
substring** matching, catalog order, truncation to `limit`. -/
def searchMoviesSubstring (movies : List MovieRow) (query : List Char) (limit : ℕ) :
    List MovieRow :=
  (movies.filter (fun mv =>
    match mv.title with
    | none => false
    | some t => subContains (lowerList query) (lowerList t))).take limit

/-! ## C7: save/load round-trip of the fitted model

Modelled from the spec: the recommendation engine (DataProcessor, the CF/CB
models and their `save`/`load`) is not part of `src/` — the launch scripts
only check whether the serialized `cf_model.pkl`/`cb_model.pkl` artifacts
exist (`ProjectLauncher.prepare_models`).  The fitted state and its
serialization are therefore modelled from §3 (Lifecycle), §4.2 and §6 of
the spec. -/

/-- Modelled from the spec: the fitted collaborative-filtering state of
§4.2 — user/item index maps (external id at dense position `i`), the
user×item interaction matrix (row-major; a `0` entry means "no rating",
unambiguous since ratings lie in `[0.5, 5]`, §3) and the item×item
similarity matrix (row-major). -/
structure CFState where
  userIds : List Int
  itemIds : List Int
  entries : List ℚ
  simEntries : List ℚ
deriving DecidableEq, Repr

/-- Serialization (`save`): the fitted state becomes one flat blob — four segment
lengths followed by the four segments. -/
def encodeCF (s : CFState) : List ℚ :=
  [(s.userIds.length : ℚ), (s.itemIds.length : ℚ),
   (s.entries.length : ℚ), (s.simEntries.length : ℚ)]
  ++ (s.userIds.map (fun i => (Int.cast i : ℚ))
    ++ (s.itemIds.map (fun i => (Int.cast i : ℚ))
      ++ (s.entries ++ s.simEntries)))

/-- Deserialization (`load`): parse the blob back; corrupt snapshots (wrong header or
length) fail with `none` rather than loading partially (§7). -/
def decodeCF (b : List ℚ) : Option CFState :=
  match b with
  | nu :: ni :: ne :: ns :: rest =>
    let ku := nu.num.toNat
    let ki := ni.num.toNat
    let ke := ne.num.toNat
    let ks := ns.num.toNat
    if rest.length = ku + ki + ke + ks then
      some ⟨(rest.take ku).map (fun q => q.num),
            ((rest.drop ku).take ki).map (fun q => q.num),
            ((rest.drop ku).drop ki).take ke,
            ((rest.drop ku).drop ki).drop ke⟩
    else none
  | _ => none

/-- Interaction-matrix entry of user position `ui` and item position `ii`. -/
def cfEntry (s : CFState) (ui ii : ℕ) : ℚ :=
  s.entries.getD (ui * s.itemIds.length + ii) 0

/-- Similarity-matrix entry of item positions `i`, `j`. -/
def cfSim (s : CFState) (i j : ℕ) : ℚ :=
  s.simEntries.getD (i * s.itemIds.length + j) 0

/-- Global mean of the present ratings (the §4.2 cold-start baseline). -/
def cfGlobalMean (s : CFState) : ℚ :=
  let nz := s.entries.filter (fun q => !(q == 0))
  if nz.length = 0 then 0 else nz.sum / (nz.length : ℚ)

/-- Clamp of §4.2 `predict` to the rating scale. -/
def clampRating (q : ℚ) : ℚ := max (1/2) (min 5 q)

/-- Ranking relation shared by the engine's ordered outputs: score
descending, ties by ascending `movieId`. -/
def pairScoreDesc (p1 p2 : Int × ℚ) : Prop :=
  p2.2 < p1.2 ∨ (p1.2 = p2.2 ∧ p1.1 ≤ p2.1)

instance : DecidableRel pairScoreDesc :=
  fun _ _ => inferInstanceAs (Decidable (_ ∨ _))

/-- Neighbour ranking for `predict`: similarity to the target item
descending, ties by ascending item position. -/
def simDescAt (s : CFState) (ii : ℕ) (j1 j2 : ℕ) : Prop :=
  cfSim s ii j2 < cfSim s ii j1 ∨ (cfSim s ii j1 = cfSim s ii j2 ∧ j1 ≤ j2)

instance (s : CFState) (ii : ℕ) : DecidableRel (simDescAt s ii) :=
  fun _ _ => inferInstanceAs (Decidable (_ ∨ _))

/-- Modelled from the spec, §4.2 `predict`: weighted average of the target
user's ratings on the `k` most-similar rated items, weighted by similarity
magnitude, clamped to `[0.5, 5]`; global-mean fallback when the user or
item is absent from the fitted index or no neighbourhood signal exists. -/
def cfPredict (s : CFState) (k : ℕ) (userId movieId : Int) : ℚ :=
  match s.userIds.findIdx? (fun u => u == userId),
        s.itemIds.findIdx? (fun m => m == movieId) with
  | some ui, some ii =>
    let rated := (List.range s.itemIds.length).filter
      (fun j => !(cfEntry s ui j == 0) && !(j == ii))
    let neigh := (List.insertionSort (simDescAt s ii) rated).take k
    let den := (neigh.map (fun j => |cfSim s ii j|)).sum
    if den = 0 then cfGlobalMean s
    else clampRating ((neigh.map (fun j => cfSim s ii j * cfEntry s ui j)).sum / den)
  | _, _ => cfGlobalMean s

/-- Ratings count of the item at position `ii` (for the popularity
fallback). -/
def cfItemRatingCount (s : CFState) (ii : ℕ) : ℕ :=
  ((List.range s.userIds.length).filter (fun ui => !(cfEntry s ui ii == 0))).length

/-- Modelled from the spec, §4.2 `recommend`: a user absent from the index
gets the `n` globally most-rated items (popularity fallback); a known user
gets all unrated items scored by `predict`, top `n` by descending score,
ties by ascending `movieId`. -/
def cfRecommend (s : CFState) (k : ℕ) (userId : Int) (n : ℕ) : List (Int × ℚ) :=
  match s.userIds.findIdx? (fun u => u == userId) with
  | none =>
    (List.insertionSort pairScoreDesc
      (s.itemIds.enum.map (fun p => (p.2, (cfItemRatingCount s p.1 : ℚ))))).take n
  | some ui =>
    let unrated := s.itemIds.enum.filter (fun p => cfEntry s ui p.1 == 0)
    (List.insertionSort pairScoreDesc
      (unrated.map (fun p => (p.2, cfPredict s k userId p.2)))).take n

/-! ## C8: `recommendSimilar` of the content-based model

Modelled from the spec: the ContentBasedFilteringModel is not part of
`src/` either, so §4.3 `recommendSimilar` and its §7 error policy are
modelled from the spec. -/

/-- The recoverable error of §4.3/§7 for an item unknown at fit time. -/
inductive CBError where
  | unknownItem
deriving DecidableEq, Repr

/-- Modelled from the spec: the fitted content-based state of §4.3 — the
item index and the item×item similarity matrix (one row per item
position). -/
structure CBState where
  itemIds : List Int
  simRows : List (List ℚ)
deriving DecidableEq, Repr

/-- Similarity of the items at positions `i` and `j`. -/
def cbSim (s : CBState) (i j : ℕ) : ℚ :=
  (s.simRows.getD i []).getD j 0

/-- Modelled from the spec, §4.3 `recommendSimilar`: fails with
`UnknownItemError` when the id was not present at fit time; otherwise
ranks all **other** items by similarity descending (ties by ascending
`movieId`) and truncates to `n`. -/
def cbRecommendSimilar (s : CBState) (movieId : Int) (n : ℕ) :
    Except CBError (List (Int × ℚ)) :=
  match s.itemIds.findIdx? (fun m => m == movieId) with
  | none => .error .unknownItem
  | some mi =>
    let cands := (s.itemIds.enum.filter (fun p => !(p.2 == movieId))).map
      (fun p => (p.2, cbSim s mi p.1))
    .ok ((List.insertionSort pairScoreDesc cands).take n)

/-- The list inside a successful `recommendSimilar` result. -/
def cbResultList : Except CBError (List (Int × ℚ)) → List (Int × ℚ)
  | .ok l => l
  | .error _ => []

/-- Concrete fitted content-based state: items 1, 2, 3. -/
def cbStateW : CBState :=
  ⟨[1, 2, 3], [[1, 0, 0], [0, 1, 1/2], [0, 1/2, 1]]⟩

/-! ## C1 and C2 -/

/-- C1: the claim says every recommendation score and reason is a
deterministic function of fitted model state, with no unseeded randomness,
so two identical requests return the same list.  The Streamlit
`get_recommendations` draws from the **unseeded** global generator: the
same request (same catalog, same `n`, the `user_id` argument is ignored)
returns different score lists under two different ambient generator
states, so its output is not a function of the request at all. -/
theorem C1_streamlit_unseeded_randomness :
    streamlitRecommendations moviesFix 5 drawsZero ≠
      streamlitRecommendations moviesFix 5 drawsHalf := by
  with_unfolding_all decide

/-- C2: the claim says that for a user absent from the rating table the
recommendation operation returns exactly the top-n most-rated items.  The
endpoint ignores the ratings table when building its answer (it samples
`movies_df` with the generator seeded only by `user_id`), so for **every**
possible generator behaviour its output is the same for two rating tables
with different popularity rankings — hence it cannot return the popularity
top-n: the claim fails on one of the two concrete fixtures. -/
theorem C2_popularity_fallback_missing :
    (∀ rng : Int → RngDraws,
      apiRecommendList rng moviesFix ratingsA 999 1 =
        apiRecommendList rng moviesFix ratingsB 999 1)
    ∧ topRatedIds moviesFix ratingsA 1 = [3]
    ∧ topRatedIds moviesFix ratingsB 1 = [2]
    ∧ ¬ (∀ rng : Int → RngDraws, ∀ ratings : List RatingRow,
          (apiRecommendList rng moviesFix ratings 999 1).map
              (fun r => r.movieId) =
            topRatedIds moviesFix ratings 1) := by
  refine ⟨fun rng => rfl, by with_unfolding_all decide, by with_unfolding_all decide, fun h => ?_⟩
  have hA := h rngW ratingsA
  have hB := h rngW ratingsB
  rw [show apiRecommendList rngW moviesFix ratingsA 999 1 =
        apiRecommendList rngW moviesFix ratingsB 999 1 from rfl] at hA
  rw [hB] at hA
  revert hA
  with_unfolding_all decide

/-! ## C3 and C4: score range and ordering of the API recommendation list -/

/-- C3: for every user and every `n`, whenever the generator's uniform
draws lie in `[0, 1)` (as `np.random.random()` guarantees), every score in
the returned recommendation list lies in `[0, 1]` — the code produces
`0.5 + 0.4*u ∈ [0.5, 0.9) ⊆ [0, 1]`. -/
theorem C3_scores_unit_interval (rng : Int → RngDraws) (movies : List MovieRow)
    (ratings : List RatingRow) (userId : Int) (n : ℕ)
    (hdraws : ∀ i, 0 ≤ (rng userId).score i ∧ (rng userId).score i < 1) :
    ∀ r ∈ apiRecommendList rng movies ratings userId n,
      0 ≤ r.score ∧ r.score ≤ 1 := by
  intro r hr
  simp only [apiRecommendList, List.mem_insertionSort, List.mem_map] at hr
  obtain ⟨p, _, rfl⟩ := hr
  obtain ⟨h0, h1⟩ := hdraws p.1
  constructor <;> simp only [] <;> nlinarith

/-- Witness for C3 at a concrete request. -/
theorem C3_witness :
    (∀ i, 0 ≤ (rngW 42).score i ∧ (rngW 42).score i < 1)
    ∧ ∀ r ∈ apiRecommendList rngW moviesFix ratingsA 42 2,
        0 ≤ r.score ∧ r.score ≤ 1 := by
  have h : ∀ i, 0 ≤ (rngW 42).score i ∧ (rngW 42).score i < 1 := fun i =>
    ⟨by show (0:ℚ) ≤ 1/2; with_unfolding_all decide,
     by show (1:ℚ)/2 < 1; with_unfolding_all decide⟩
  exact ⟨h, C3_scores_unit_interval rngW moviesFix ratingsA 42 2 h⟩

/-- C4 counterexample: with equal scores, `list.sort(key=..., reverse=True)`
is stable and keeps the sampled order, so the returned list has the tie in
**descending** `movieId` order `[2, 1]`, not the ascending order the claim
demands. -/
theorem C4_counterexample :
    (apiRecommendList rngTie moviesFix ratingsA 5 2).map
        (fun r => (r.movieId, r.score)) = [(2, 7/10), (1, 7/10)]
    ∧ ¬ claimC4Order (apiRecommendList rngTie moviesFix ratingsA 5 2) := by
  constructor <;> with_unfolding_all decide

/-- C4 amended: the list is sorted by score descending (ties keep the
sampled order, since the sort is stable) and has at most `n` entries. -/
theorem C4_amended (rng : Int → RngDraws) (movies : List MovieRow)
    (ratings : List RatingRow) (userId : Int) (n : ℕ) :
    List.Sorted apiScoreGE (apiRecommendList rng movies ratings userId n)
    ∧ (apiRecommendList rng movies ratings userId n).length ≤ n := by
  constructor
  · exact List.sorted_insertionSort apiScoreGE _
  · simp only [apiRecommendList, List.length_insertionSort, List.length_map,
      List.enum_length]
    calc (dfSample movies (min n movies.length) (rng userId).sel).length
        ≤ ((rng userId).sel.take (min n movies.length)).length :=
          List.length_filterMap_le _ _
      _ ≤ min n movies.length := by
          rw [List.length_take]
          exact min_le_left _ _
      _ ≤ n := min_le_left _ _

/-! ## C5, C6, C9: the rating boundary and the recommendation endpoint -/

set_option maxRecDepth 4096 in
/-- C5 counterexample: a submission with a negative `userId` (and an
in-catalog `movieId`) passes validation and is appended end-to-end; the
claim demands a validation/domain error for any negative id. -/
theorem C5_counterexample :
    ratingValidate (-5) 1 3 none = some ⟨-5, 1, 3, none⟩
    ∧ (addRating ⟨moviesFix, []⟩ ⟨-5, 1, 3, none⟩ 777).2.ratings = [⟨-5, 1, 3, 777⟩] := by
  constructor <;> with_unfolding_all decide

/-- C5 amended: the boundary rejects exactly the ratings outside
`[0.5, 5.0]` — regardless of the signs of `userId`/`movieId` — and stores
an accepted submission verbatim, with no coercion. -/
theorem C5_amended (userId movieId : Int) (rating : ℚ) (timestamp : Option Int) :
    ((ratingValidate userId movieId rating timestamp).isSome ↔
      (1/2 ≤ rating ∧ rating ≤ 5))
    ∧ (ratingValidate userId movieId rating timestamp = none
        ∨ ratingValidate userId movieId rating timestamp =
            some ⟨userId, movieId, rating, timestamp⟩) := by
  unfold ratingValidate
  split <;> simp_all

/-- C6 amended: the recommendation endpoint never raises for a user id that
is absent from the rating table — with the tables loaded it returns a list
of recommendations for every user id. -/
theorem C6_no_raise_unknown_user (rng : Int → RngDraws) (movies : List MovieRow)
    (ratings : List RatingRow) (userId : Int) (n : ℕ)
    (_hunknown : ∀ r ∈ ratings, r.userId ≠ userId) :
    ∃ recs, apiRecommendEndpoint rng (some movies) (some ratings) userId n =
      .ok recs :=
  ⟨_, rfl⟩

/-- Witness for C6: user 999 has no row in `ratingsA`, and the endpoint
answers with a list. -/
theorem C6_witness :
    (∀ r ∈ ratingsA, r.userId ≠ 999)
    ∧ ∃ recs, apiRecommendEndpoint rngW (some moviesFix) (some ratingsA) 999 3 =
        .ok recs := by
  have h : ∀ r ∈ ratingsA, r.userId ≠ 999 := by decide
  exact ⟨h, C6_no_raise_unknown_user rngW moviesFix ratingsA 999 3 h⟩

/-- C6 counterexample: the claim also says the operation degrades to the
documented fallback (popularity).  For the unknown user 999 the endpoint
returns the seeded random sample (movie 1 under `rngW`), not the
popularity top-1 `[3]`. -/
theorem C6_counterexample :
    (apiRecommendEndpoint rngW (some moviesFix) (some ratingsA) 999 1).toOption.map
        (fun l => l.map (fun r => r.movieId)) = some [1]
    ∧ topRatedIds moviesFix ratingsA 1 = [3] := by
  constructor <;> with_unfolding_all decide

set_option maxRecDepth 4096 in
/-- C9 counterexample: a submission that **provides** `timestamp = 0` is
stored with the current time instead (Python's falsy `or`), so the
appended row does not carry the submitted timestamp. -/
theorem C9_counterexample :
    (addRating ⟨moviesFix, []⟩ ⟨1, 1, 3, some 0⟩ 999).2.ratings = [⟨1, 1, 3, 999⟩]
    ∧ (addRating ⟨moviesFix, []⟩ ⟨1, 1, 3, some 0⟩ 999).2.ratings ≠ [⟨1, 1, 3, 0⟩] := by
  constructor <;> with_unfolding_all decide

/-- C9 amended: unknown `movieId` gives 404 and leaves the state unchanged;
a known `movieId` appends exactly one row — carrying the submitted
timestamp when it is present and non-zero, and the current time when it is
absent or zero — and leaves the movie table unchanged. -/
theorem C9_amended (st : AppState) (sub : RatingSubmission) (now : Int) :
    ((∀ mv ∈ st.movies, mv.movieId ≠ sub.movieId) →
      (addRating st sub now).1 = .error 404 ∧ (addRating st sub now).2 = st)
    ∧ ((∃ mv ∈ st.movies, mv.movieId = sub.movieId) →
      (addRating st sub now).2.movies = st.movies
      ∧ (addRating st sub now).2.ratings =
          st.ratings ++ [⟨sub.userId, sub.movieId, sub.rating,
            match sub.timestamp with
            | some t => if t = 0 then now else t
            | none => now⟩]) := by
  constructor
  · intro h
    have hfalse : st.movies.any (fun mv => mv.movieId == sub.movieId) = false := by
      simp only [List.any_eq_false, beq_iff_eq]
      exact h
    rw [addRating, hfalse]
    exact ⟨rfl, rfl⟩
  · intro h
    have htrue : st.movies.any (fun mv => mv.movieId == sub.movieId) = true := by
      simp only [List.any_eq_true, beq_iff_eq]
      exact h
    rw [addRating, htrue]
    exact ⟨rfl, rfl⟩

/-- Witness for C9 at concrete inputs: an unknown movie id is refused with
404 without touching the state. -/
theorem C9_witness :
    (∀ mv ∈ moviesFix, mv.movieId ≠ 42)
    ∧ (addRating ⟨moviesFix, ratingsA⟩ ⟨7, 42, 3, none⟩ 50).1 = .error 404
    ∧ (addRating ⟨moviesFix, ratingsA⟩ ⟨7, 42, 3, none⟩ 50).2 = ⟨moviesFix, ratingsA⟩ := by
  have h : ∀ mv ∈ moviesFix, mv.movieId ≠ 42 := by decide
  have := (C9_amended ⟨moviesFix, ratingsA⟩ ⟨7, 42, 3, none⟩ 50).1 h
  exact ⟨h, this.1, this.2⟩

/-! ## C10 theorems: the movie search endpoint -/

/-- On a dot-free pattern, regex prefix matching is literal prefix
matching. -/
theorem reMatchAt_eq_isPrefixOf (p : List Char) (hd : '.' ∉ p) :
    ∀ s : List Char, reMatchAt p s = p.isPrefixOf s := by
  induction p with
  | nil => intro s; cases s <;> rfl
  | cons a as ih =>
    intro s
    cases s with
    | nil => rfl
    | cons c cs =>
      have ha : (a == '.') = false := by
        simp only [beq_eq_false_iff_ne]
        intro hEq
        exact hd (hEq ▸ List.mem_cons_self a as)
      have ih' := ih (fun hmem => hd (List.mem_cons_of_mem _ hmem)) cs
      simp [reMatchAt, List.isPrefixOf, ha, ih']

/-- On a dot-free pattern, regex search is substring containment. -/
theorem reSearch_eq_subContains (p s : List Char) (hd : '.' ∉ p) :
    reSearch p s = subContains p s := by
  unfold reSearch subContains
  congr 1
  funext t
  exact reMatchAt_eq_isPrefixOf p hd t

/-- Lowercasing a character other than `.` never yields `.` (uppercase
letters map into `a`–`z`; everything else is fixed). -/
theorem toLower_ne_dot {c : Char} (hne : c ≠ '.') : Char.toLower c ≠ '.' := by
  intro h
  unfold Char.toLower at h
  by_cases hc : c.toNat ≥ 65 ∧ c.toNat ≤ 90
  · rw [if_pos hc] at h
    obtain ⟨h1, h2⟩ := hc
    interval_cases hn : c.toNat <;> exact absurd h (by decide)
  · rw [if_neg hc] at h
    exact hne h

/-- A metacharacter-free query stays dot-free after lowercasing. -/
theorem dot_not_mem_lowerList {query : List Char}
    (h : ∀ c ∈ query, c ∉ pyRegexMeta) : '.' ∉ lowerList query := by
  intro hmem
  obtain ⟨c, hc, hlow⟩ := List.mem_map.mp hmem
  have hne : c ≠ '.' := fun hEq => h c hc (hEq ▸ (by decide : '.' ∈ pyRegexMeta))
  exact toLower_ne_dot hne hlow

/-- A metacharacter-free query lies in the modelled regex fragment. -/
theorem inRegexFragment_of_meta_free {query : List Char}
    (h : ∀ c ∈ query, c ∉ pyRegexMeta) : inRegexFragment query = true := by
  rw [inRegexFragment, List.all_eq_true]
  intro c hc
  simp [h c hc]

set_option maxRecDepth 8192 in
/-- C10 counterexample: the query `"."` contains no regex metacharacter
problems for the model (`.` is inside the exactly-modelled fragment), is a
substring of no fixture title, yet as a regex it matches every present
title: the endpoint returns the whole catalog where the claim demands the
empty list. -/
theorem C10_counterexample :
    searchMovies moviesFix ['.'] 10 = some moviesFix
    ∧ searchMoviesSubstring moviesFix ['.'] 10 = []
    ∧ moviesFix ≠ [] := by
  refine ⟨?_, ?_, ?_⟩ <;> decide

/-- C10 amended: for a non-empty query containing **no** Python regex
metacharacter (`. ^ $ * + ? [ ] ( ) | \ { }`), the endpoint returns
exactly the catalog movies whose (present) title contains the query as a
case-insensitive substring, in catalog order, truncated to `limit`.  Such
a query lies inside the fragment on which the model is exact, so the
partial model is defined (`some`) and equals the substring semantics.
Queries with a metacharacter are outside this statement: there the
endpoint applies full regex semantics or raises `re.error`, and the model
asserts nothing (`searchMovies` returns `none`). -/
theorem C10_amended (movies : List MovieRow) (query : List Char) (limit : ℕ)
    (_hne : query ≠ []) (hd : ∀ c ∈ query, c ∉ pyRegexMeta) :
    searchMovies movies query limit =
      some (searchMoviesSubstring movies query limit)
    ∧ (searchMoviesSubstring movies query limit).length ≤ limit := by
  have hfrag := inRegexFragment_of_meta_free hd
  have hdot : '.' ∉ lowerList query := dot_not_mem_lowerList hd
  constructor
  · unfold searchMovies
    rw [if_pos hfrag]
    congr 1
    unfold searchMoviesSubstring
    congr 1
    apply List.filter_congr
    intro mv _
    unfold titleMatches
    cases mv.title with
    | none => rfl
    | some t => exact reSearch_eq_subContains _ _ hdot
  · unfold searchMoviesSubstring
    rw [List.length_take]
    exact min_le_left _ _

set_option maxRecDepth 8192 in
/-- Witness for C10 at a concrete metacharacter-free query. -/
theorem C10_witness :
    (("toy".toList ≠ [] ∧ ∀ c ∈ ("toy".toList), c ∉ pyRegexMeta)
      ∧ searchMovies moviesFix ("toy".toList) 2 =
          some (searchMoviesSubstring moviesFix ("toy".toList) 2)
      ∧ (searchMoviesSubstring moviesFix ("toy".toList) 2).length ≤ 2)
    ∧ searchMoviesSubstring moviesFix ("toy".toList) 2 =
        [⟨1, some ("Toy Story (1995)".toList),
          "Adventure|Animation|Children|Comedy|Fantasy"⟩] := by
  have h1 : "toy".toList ≠ [] := by decide
  have h2 : ∀ c ∈ ("toy".toList), c ∉ pyRegexMeta := by decide
  have h := C10_amended moviesFix ("toy".toList) 2 h1 h2
  exact ⟨⟨⟨h1, h2⟩, h.1, h.2⟩, by decide⟩

/-! ## C7 theorems: save/load round-trip -/

/-- Casting a list of integers into `ℚ` and taking numerators gives it
back. -/
theorem map_num_map_intCast (l : List Int) :
    (l.map (fun i => (Int.cast i : ℚ))).map (fun q => q.num) = l := by
  induction l with
  | nil => rfl
  | cons a l ih => simp only [List.map_cons, Rat.num_intCast, ih]

/-- Loading after saving restores the fitted state exactly. -/
theorem decodeCF_encodeCF (s : CFState) : decodeCF (encodeCF s) = some s := by
  obtain ⟨us, its, es, sims⟩ := s
  simp only [encodeCF, decodeCF, List.cons_append, List.nil_append]
  have hnum : ∀ n : ℕ, ((n : ℚ)).num.toNat = n := by
    intro n
    simp
  have hlen :
      (us.map (fun i => (Int.cast i : ℚ)) ++ (its.map (fun i => (Int.cast i : ℚ)) ++ (es ++ sims))).length =
        us.length + its.length + es.length + sims.length := by
    simp only [List.length_append, List.length_map]
    omega
  simp only [hnum]
  rw [if_pos hlen]
  rw [List.take_left' (List.length_map _ _), List.drop_left' (List.length_map _ _)]
  rw [List.take_left' (List.length_map _ _), List.drop_left' (List.length_map _ _)]
  rw [List.take_left' rfl, List.drop_left' rfl]
  rw [map_num_map_intCast, map_num_map_intCast]

/-- C7: `save` then `load` restores the fitted state losslessly, so
`recommend(u, n)` after the round-trip returns the identical ordered
(movieId, score) list it returned before saving. -/
theorem C7_save_load_recommend (s : CFState) (k : ℕ) (userId : Int) (n : ℕ) :
    decodeCF (encodeCF s) = some s
    ∧ (decodeCF (encodeCF s)).map (fun s2 => cfRecommend s2 k userId n) =
        some (cfRecommend s k userId n) := by
  have h := decodeCF_encodeCF s
  exact ⟨h, by rw [h]; rfl⟩

/-! ## C8 theorems: recommendSimilar -/

/-- Filtering an enumerated list on the elements has the same length as
filtering the list itself. -/
theorem length_filter_enumFrom {α : Type} (q : α → Bool) (l : List α) (k : ℕ) :
    ((List.enumFrom k l).filter (fun p => q p.2)).length = (l.filter q).length := by
  induction l generalizing k with
  | nil => rfl
  | cons a l ih =>
    simp only [List.enumFrom, List.filter]
    cases hq : q a <;> simp [hq, ih]

/-- C8: for an id present at fit time, `recommendSimilar(m, n)` succeeds,
never includes `m` itself, and returns `min n (number of other items)`
entries — all available other items when fewer than `n` exist; for an id
not present at fit time it fails with the recoverable `UnknownItemError`. -/
theorem C8_recommend_similar_contract (s : CBState) (m : Int) (n : ℕ) :
    (m ∉ s.itemIds → cbRecommendSimilar s m n = .error .unknownItem)
    ∧ (m ∈ s.itemIds →
        (cbRecommendSimilar s m n).isOk = true
        ∧ (∀ p ∈ cbResultList (cbRecommendSimilar s m n), p.1 ≠ m)
        ∧ (cbResultList (cbRecommendSimilar s m n)).length =
            min n ((s.itemIds.filter (fun x => !(x == m))).length)) := by
  constructor
  · intro hm
    have hnone : s.itemIds.findIdx? (fun x => x == m) = none := by
      rw [List.findIdx?_eq_none_iff]
      intro x hx
      simp only [beq_eq_false_iff_ne]
      exact fun hEq => hm (hEq ▸ hx)
    unfold cbRecommendSimilar
    rw [hnone]
  · intro hm
    cases hfi : s.itemIds.findIdx? (fun x => x == m) with
    | none =>
      exfalso
      rw [List.findIdx?_eq_none_iff] at hfi
      have := hfi m hm
      simp at this
    | some mi =>
      have hres : cbRecommendSimilar s m n =
          .ok ((List.insertionSort pairScoreDesc
            ((s.itemIds.enum.filter (fun p => !(p.2 == m))).map
              (fun p => (p.2, cbSim s mi p.1)))).take n) := by
        unfold cbRecommendSimilar
        rw [hfi]
      refine ⟨by rw [hres]; rfl, ?_, ?_⟩
      · intro p hp
        rw [hres] at hp
        simp only [cbResultList] at hp
        have hp2 := List.mem_insertionSort pairScoreDesc |>.mp
          (List.mem_of_mem_take hp)
        obtain ⟨q, hq, rfl⟩ := List.mem_map.mp hp2
        have := (List.mem_filter.mp hq).2
        simp only [Bool.not_eq_true', beq_eq_false_iff_ne] at this
        exact this
      · rw [hres]
        simp only [cbResultList]
        rw [List.length_take, List.length_insertionSort, List.length_map]
        have : (s.itemIds.enum.filter (fun p => !(p.2 == m))).length =
            (s.itemIds.filter (fun x => !(x == m))).length := by
          show ((List.enumFrom 0 s.itemIds).filter (fun p => !(p.2 == m))).length = _
          exact length_filter_enumFrom (fun x => !(x == m)) s.itemIds 0
        rw [this]

set_option maxRecDepth 4096 in
/-- Witness for C8: item 2 is in the index (success branch, self excluded,
truncation to 1 of the 2 other items), item 42 is not (error branch). -/
theorem C8_witness :
    ((2 : Int) ∈ cbStateW.itemIds
      ∧ (cbRecommendSimilar cbStateW 2 1).isOk = true
      ∧ (∀ p ∈ cbResultList (cbRecommendSimilar cbStateW 2 1), p.1 ≠ 2)
      ∧ (cbResultList (cbRecommendSimilar cbStateW 2 1)).length =
          min 1 ((cbStateW.itemIds.filter (fun x => !(x == 2))).length))
    ∧ ((42 : Int) ∉ cbStateW.itemIds
      ∧ cbRecommendSimilar cbStateW 42 1 = .error .unknownItem) := by
  have h2 : (2 : Int) ∈ cbStateW.itemIds := by decide
  have h42 : (42 : Int) ∉ cbStateW.itemIds := by decide
  have ha := (C8_recommend_similar_contract cbStateW 2 1).2 h2
  have hb := (C8_recommend_similar_contract cbStateW 42 1).1 h42
  exact ⟨⟨h2, ha.1, ha.2.1, ha.2.2⟩, h42, hb⟩
